import Mathlib

/- Shallow embedding of the core of `streamlit_app.py` (InsureAI, the
healthcare-insurance cost predictor): the credential store, the
prediction ledger, the inference pipeline around the externally supplied
model and scaler, and the scenario engine of the Scenarios tab.

Conventions of the embedding:
* The externally supplied regression model and feature scaler are opaque
  parameters `model : List ℚ → ℚ` and `scaler : List ℚ → List ℚ`
  (the spec treats them as black boxes; determinism is assumed).
* Machine floats are modelled as ℚ for finite values; the one place where
  IEEE special values matter (the unguarded percent-change division) uses
  the type `FVal` below, whose division-by-zero behaviour follows numpy
  float semantics (the denominator is a nonnegative clamped cost, hence +0).
* SQLite tables are lists of rows; `datetime.now()` is a logical clock
  `now : ℕ` that strictly increases between consecutive inserts;
  `ORDER BY created_at DESC` is an insertion sort on that key, descending.
* Python exceptions that the source catches (`sqlite3.IntegrityError` from
  the UNIQUE constraint on `users.username`) are modelled by the
  corresponding branch returning the caught-and-handled value. -/

namespace InsureAI

/-- Values of the `sex` selectbox of tab 1 (`["male", "female"]`). -/
inductive Sex where
  | male
  | female
deriving DecidableEq, BEq

/-- Values of the `region` selectbox of tab 1. -/
inductive Region where
  | northwest
  | northeast
  | southwest
  | southeast
deriving DecidableEq, BEq

/-- The per-request profile collected by tab 1 (`age`, `sex`, `bmi`,
`children`, `smoker`, `region`); stored in `st.session_state.last_formdata`
after a successful prediction. -/
structure Profile where
  age : ℕ
  sex : Sex
  bmi : ℚ
  children : ℕ
  smoker : Bool
  region : Region
deriving DecidableEq

/-- Declared input ranges of the tab-1 widgets: age 18..100, bmi 10.0..60.0,
children 0..10. -/
def Profile.inRange (p : Profile) : Prop :=
  18 ≤ p.age ∧ p.age ≤ 100 ∧ 10 ≤ p.bmi ∧ p.bmi ≤ 60 ∧ p.children ≤ 10

/-- Line 636: `sex_encoded = 0 if sex == "female" else 1`. -/
def sex_encoded (s : Sex) : ℚ :=
  if s = Sex.female then 0 else 1

/-- Line 637: `smoker_encoded = 1 if smoker else 0`. -/
def smoker_encoded (b : Bool) : ℚ :=
  if b then 1 else 0

/-- Lines 638-643: the `region_mapping` dict
`\x7b'northwest': 0, 'northeast': 1, 'southwest': 2, 'southeast': 3\x7d`
(the same dict literal is retyped at each scenario call site, lines 765,
797, 833, 863). -/
def region_mapping : Region → ℚ
  | Region.northwest => 0
  | Region.northeast => 1
  | Region.southwest => 2
  | Region.southeast => 3

/-- Line 647: the tab-1 feature row
`[age, sex_encoded, bmi, children, smoker_encoded, region_encoded]`. -/
def features (p : Profile) : List ℚ :=
  [(p.age : ℚ), sex_encoded p.sex, p.bmi, (p.children : ℚ),
   smoker_encoded p.smoker, region_mapping p.region]

/-- Lines 648-654: `scaler.transform` then `model.predict`, the raw
(unclamped) scalar output of the external pipeline on a profile. -/
def rawPredict (model : List ℚ → ℚ) (scaler : List ℚ → List ℚ) (p : Profile) : ℚ :=
  model (scaler (features p))

/-- One row of the `predictions` table (lines 35-38): username, the
flattened profile (smoker stored as the INTEGER `1 if smoker else 0`),
the prediction REAL and `created_at`. -/
structure PredictionRecord where
  username : String
  age : ℕ
  sex : Sex
  bmi : ℚ
  children : ℕ
  smoker : ℕ
  region : Region
  prediction : ℚ
  created_at : ℕ
deriving DecidableEq

/-- Lines 73-83, `save_prediction`: INSERT one row with
`created_at = datetime.now()` (the logical clock `now`). -/
def save_prediction (db : List PredictionRecord) (username : String) (age : ℕ)
    (sex : Sex) (bmi : ℚ) (children : ℕ) (smoker : ℕ) (region : Region)
    (prediction : ℚ) (now : ℕ) : List PredictionRecord :=
  db ++ [⟨username, age, sex, bmi, children, smoker, region, prediction, now⟩]

/-- Insertion step of the descending-by-`created_at` sort modelling
`ORDER BY created_at DESC`. -/
def insertDesc (r : PredictionRecord) :
    List PredictionRecord → List PredictionRecord
  | [] => [r]
  | x :: xs => if x.created_at ≤ r.created_at then r :: x :: xs else x :: insertDesc r xs

/-- Sort a list of prediction rows by `created_at`, newest first
(`ORDER BY created_at DESC` of lines 90-91). -/
def sortByCreatedDesc : List PredictionRecord → List PredictionRecord
  | [] => []
  | x :: xs => insertDesc x (sortByCreatedDesc xs)

/-- Lines 85-94, `get_user_predictions`: SELECT the rows whose username
matches, ordered by `created_at` descending. -/
def get_user_predictions (db : List PredictionRecord) (username : String) :
    List PredictionRecord :=
  sortByCreatedDesc (db.filter (fun r => r.username == username))

/-- One row of the `users` table (lines 31-32): `username TEXT UNIQUE`,
`password TEXT` (the digest), `created_at`. -/
structure UserRow where
  username : String
  password : String
  created_at : ℕ
deriving DecidableEq

/-- Lines 47-60, `create_user`: INSERT the username with the hashed
password; the UNIQUE constraint on `username` raises
`sqlite3.IntegrityError` when the username is already present, which the
source catches and turns into `False` with the table unchanged.
The digest `hash` (SHA-256 in the source, line 43-45) is an opaque
deterministic function parameter. -/
def create_user (hash : String → String) (db : List UserRow) (u p : String)
    (now : ℕ) : List UserRow × Bool :=
  if db.any (fun r => r.username == u) then (db, false)
  else (db ++ [⟨u, hash p, now⟩], true)

/-- Lines 62-71, `verify_user`: SELECT a row with
`username=? AND password=?` against the recomputed digest; true iff one
exists. -/
def verify_user (hash : String → String) (db : List UserRow) (u p : String) :
    Bool :=
  db.any (fun r => r.username == u && r.password == hash p)

/-- Lines 634-660, the Predict Cost handler of tab 1:
`prediction = max(0, model(scaler(features)))`, then
`save_prediction(username, age, sex, bmi, children, 1 if smoker else 0,
region, prediction)`. Returns the displayed prediction and the updated
predictions table. -/
def predictCostFlow (model : List ℚ → ℚ) (scaler : List ℚ → List ℚ)
    (db : List PredictionRecord) (username : String) (p : Profile) (now : ℕ) :
    ℚ × List PredictionRecord :=
  let prediction := max 0 (rawPredict model scaler p)
  (prediction,
   save_prediction db username p.age p.sex p.bmi p.children
     (if p.smoker then 1 else 0) p.region prediction now)

/-- A float-like value: a finite rational or one of the IEEE special
values. Needed because the scenario percent-change division is unguarded
in the source and the operands are numpy floats, whose division by zero
yields ±inf or nan (with a RuntimeWarning) instead of raising. -/
inductive FVal where
  | finite (q : ℚ)
  | posInf
  | negInf
  | nan
deriving DecidableEq

/-- The expression `(num / den) * 100` of lines 778, 810, 846, 876 under
numpy float semantics with finite operands. `den` is the session's
`last_prediction`, a clamped (hence nonnegative, +0 when zero) cost:
`num / +0` is nan when `num = 0`, `+inf` when `num > 0`, `-inf` when
`num < 0`, and multiplying by 100 preserves the special values. -/
def pctChange (num den : ℚ) : FVal :=
  if den = 0 then
    if num = 0 then FVal.nan
    else if 0 < num then FVal.posInf
    else FVal.negInf
  else FVal.finite (num / den * 100)

/-- What a scenario computes and displays: the modified profile, the raw
re-prediction `new_pred`, the delta (`savings` for Quit Smoking and Lose
Weight, `difference` for Change Region and Project 10 Years) and the
percent change. Ephemeral, never persisted. -/
structure ScenarioResult where
  modified : Profile
  new_pred : ℚ
  delta : ℚ
  pct_change : FVal
deriving DecidableEq

/-- Lines 766-769, the feature row of the Quit Smoking recompute: sex is
encoded by the inline `0 if modified['sex'] == "female" else 1`, the
smoker slot is the literal `0` (the scenario just set smoker to False),
region by the retyped `region_mapping` dict. -/
def quitSmokingFeatures (m : Profile) : List ℚ :=
  [(m.age : ℚ), if m.sex = Sex.female then 0 else 1, m.bmi, (m.children : ℚ),
   0, region_mapping m.region]

/-- Lines 798-801 (and identically 834-837, 864-867): the feature row of
the Lose Weight, Change Region and Project 10 Years recomputes, with sex
and smoker encoded by the inline conditionals and region by the retyped
`region_mapping` dict. -/
def inlineScenarioFeatures (m : Profile) : List ℚ :=
  [(m.age : ℚ), if m.sex = Sex.female then 0 else 1, m.bmi, (m.children : ℚ),
   if m.smoker then 1 else 0, region_mapping m.region]

/-- Outcome of the Quit Smoking button: either a computed result, or the
no-change message `"You're already a non-smoker!"` of line 786. -/
inductive QuitSmokingOutcome where
  | result (r : ScenarioResult)
  | alreadyNonSmoker
deriving DecidableEq

/-- Lines 758-786, the Quit Smoking scenario: only when the baseline is a
smoker, copy the form data, set smoker to False, re-predict (no clamp in
the source), and compute `savings = last_prediction - new_pred` and the
percent change; otherwise report the no-change message. -/
def quitSmoking (model : List ℚ → ℚ) (scaler : List ℚ → List ℚ)
    (last_formdata : Profile) (last_prediction : ℚ) : QuitSmokingOutcome :=
  if last_formdata.smoker then
    let modified := { last_formdata with smoker := false }
    let new_pred := model (scaler (quitSmokingFeatures modified))
    let savings := last_prediction - new_pred
    QuitSmokingOutcome.result ⟨modified, new_pred, savings, pctChange savings last_prediction⟩
  else QuitSmokingOutcome.alreadyNonSmoker

/-- Lines 791-816, the Lose Weight scenario: copy the form data, set
`bmi := max(10, bmi - 5)`, re-predict (no clamp in the source), and
compute `savings = last_prediction - new_pred` and the percent change. -/
def loseWeight (model : List ℚ → ℚ) (scaler : List ℚ → List ℚ)
    (last_formdata : Profile) (last_prediction : ℚ) : ScenarioResult :=
  let modified := { last_formdata with bmi := max 10 (last_formdata.bmi - 5) }
  let new_pred := model (scaler (inlineScenarioFeatures modified))
  let savings := last_prediction - new_pred
  ⟨modified, new_pred, savings, pctChange savings last_prediction⟩

/-- Line 827: `regions = ['northwest', 'northeast', 'southwest', 'southeast']`. -/
def regionsCycle : List Region :=
  [Region.northwest, Region.northeast, Region.southwest, Region.southeast]

/-- Lines 828-829: `current_idx = regions.index(region);
region = regions[(current_idx + 1) % len(regions)]`. -/
def nextRegion (r : Region) : Region :=
  regionsCycle.getD ((regionsCycle.indexOf r + 1) % regionsCycle.length)
    Region.northwest

/-- Lines 825-852, the Change Region scenario: copy the form data, step
the region one place along the cycle, re-predict (no clamp in the
source), and compute `difference = new_pred - last_prediction` and the
percent change. -/
def changeRegion (model : List ℚ → ℚ) (scaler : List ℚ → List ℚ)
    (last_formdata : Profile) (last_prediction : ℚ) : ScenarioResult :=
  let modified := { last_formdata with region := nextRegion last_formdata.region }
  let new_pred := model (scaler (inlineScenarioFeatures modified))
  let difference := new_pred - last_prediction
  ⟨modified, new_pred, difference, pctChange difference last_prediction⟩

/-- Lines 857-882, the Project 10 Years scenario: copy the form data, set
`age := min(100, age + 10)`, re-predict (no clamp in the source), and
compute `difference = new_pred - last_prediction` and the percent
change. -/
def projectTenYears (model : List ℚ → ℚ) (scaler : List ℚ → List ℚ)
    (last_formdata : Profile) (last_prediction : ℚ) : ScenarioResult :=
  let modified := { last_formdata with age := min 100 (last_formdata.age + 10) }
  let new_pred := model (scaler (inlineScenarioFeatures modified))
  let difference := new_pred - last_prediction
  ⟨modified, new_pred, difference, pctChange difference last_prediction⟩

/-- The state a logged-in session acts on: the `predictions` table, the
current username, the session baseline (`last_formdata`,
`last_prediction`) and the logical clock. -/
structure AppState where
  preds : List PredictionRecord
  username : String
  last_formdata : Profile
  last_prediction : ℚ
  now : ℕ
deriving DecidableEq

/-- The Predict Cost handler as a state transition: it writes one ledger
row, replaces the session baseline with the submitted profile and the
clamped prediction, and advances the clock. -/
def runPredictCost (model : List ℚ → ℚ) (scaler : List ℚ → List ℚ)
    (st : AppState) (p : Profile) : AppState × ℚ :=
  let r := predictCostFlow model scaler st.preds st.username p st.now
  ({ st with preds := r.2, last_formdata := p, last_prediction := r.1,
             now := st.now + 1 }, r.1)

/-- The Quit Smoking button as a state transition. The handler copies
`last_formdata` (dict `.copy()`, line 760), never assigns to session
state and never calls `save_prediction`, so the state component is
returned unchanged. -/
def runQuitSmoking (model : List ℚ → ℚ) (scaler : List ℚ → List ℚ)
    (st : AppState) : AppState × QuitSmokingOutcome :=
  (st, quitSmoking model scaler st.last_formdata st.last_prediction)

/-- The Lose Weight button as a state transition (copy at line 792; no
session-state writes, no `save_prediction`). -/
def runLoseWeight (model : List ℚ → ℚ) (scaler : List ℚ → List ℚ)
    (st : AppState) : AppState × ScenarioResult :=
  (st, loseWeight model scaler st.last_formdata st.last_prediction)

/-- The Change Region button as a state transition (copy at line 826; no
session-state writes, no `save_prediction`). -/
def runChangeRegion (model : List ℚ → ℚ) (scaler : List ℚ → List ℚ)
    (st : AppState) : AppState × ScenarioResult :=
  (st, changeRegion model scaler st.last_formdata st.last_prediction)

/-- The Project 10 Years button as a state transition (copy at line 858;
no session-state writes, no `save_prediction`). -/
def runProjectTenYears (model : List ℚ → ℚ) (scaler : List ℚ → List ℚ)
    (st : AppState) : AppState × ScenarioResult :=
  (st, projectTenYears model scaler st.last_formdata st.last_prediction)

/-- Helper: whenever the profile is a non-smoker (exactly the case of the
Quit Smoking recompute), the inline feature row of lines 766-769 — with
its literal `0` in the smoker slot — coincides with the tab-1 feature
row. -/
lemma quitSmokingFeatures_eq (m : Profile) (h : m.smoker = false) :
    quitSmokingFeatures m = features m := by
  simp [quitSmokingFeatures, features, smoker_encoded, sex_encoded, h]

/-- Helper: the inline feature row of the Lose Weight, Change Region and
Project 10 Years recomputes coincides with the tab-1 feature row. -/
lemma inlineScenarioFeatures_eq (m : Profile) :
    inlineScenarioFeatures m = features m := by
  simp [inlineScenarioFeatures, features, smoker_encoded, sex_encoded]

/-- Helper: the Quit Smoking scenario on a smoker baseline, written out. -/
lemma quitSmoking_eq_of_smoker (model : List ℚ → ℚ) (scaler : List ℚ → List ℚ)
    (p : Profile) (c : ℚ) (hs : p.smoker = true) :
    quitSmoking model scaler p c = QuitSmokingOutcome.result
      ⟨{ p with smoker := false },
       model (scaler (quitSmokingFeatures { p with smoker := false })),
       c - model (scaler (quitSmokingFeatures { p with smoker := false })),
       pctChange (c - model (scaler (quitSmokingFeatures { p with smoker := false }))) c⟩ := by
  simp [quitSmoking, hs]

/-- Helper: with a zero denominator (a zero baseline cost), the percent
computation yields one of the three special values, never a finite one. -/
lemma pctChange_zero_den (num : ℚ) :
    (pctChange num 0 = FVal.nan ∨ pctChange num 0 = FVal.posInf ∨
      pctChange num 0 = FVal.negInf) ∧
    ∀ q : ℚ, pctChange num 0 ≠ FVal.finite q := by
  unfold pctChange
  by_cases h0 : num = 0
  · simp [h0]
  · by_cases hp : 0 < num
    · simp [h0, hp]
    · simp [h0, hp]

/-- Helper: a row appended with a strictly newer `created_at` than every
row of the list comes first in the descending sort. -/
lemma sortByCreatedDesc_append_newest (n : PredictionRecord) :
    ∀ l : List PredictionRecord, (∀ r ∈ l, r.created_at < n.created_at) →
      ∃ t, sortByCreatedDesc (l ++ [n]) = n :: t := by
  intro l
  induction l with
  | nil => intro _; exact ⟨[], rfl⟩
  | cons x xs ih =>
    intro h
    obtain ⟨t, ht⟩ := ih (fun r hr => h r (List.mem_cons_of_mem x hr))
    have hx : ¬ n.created_at ≤ x.created_at :=
      Nat.not_le.mpr (h x (List.mem_cons_self x xs))
    refine ⟨insertDesc x t, ?_⟩
    rw [List.cons_append]
    show insertDesc x (sortByCreatedDesc (xs ++ [n])) = n :: insertDesc x t
    rw [ht]
    show insertDesc x (n :: t) = n :: insertDesc x t
    simp [insertDesc, hx]

/-- C1: for every in-range profile, the Predict Cost flow clamps the raw
model output at 0, so the displayed prediction is nonnegative, and the one
row it appends to the predictions table stores exactly this clamped
nonnegative value as its `prediction`. -/
theorem predict_cost_nonneg_and_persisted (model : List ℚ → ℚ)
    (scaler : List ℚ → List ℚ) (db : List PredictionRecord) (username : String)
    (p : Profile) (now : ℕ) (hp : p.inRange) :
    0 ≤ (predictCostFlow model scaler db username p now).1 ∧
    ∃ rec : PredictionRecord,
      (predictCostFlow model scaler db username p now).2 = db ++ [rec] ∧
      rec.prediction = (predictCostFlow model scaler db username p now).1 ∧
      0 ≤ rec.prediction :=
  ⟨le_max_left 0 _, ⟨_, rfl, rfl, le_max_left 0 _⟩⟩

/-- Witness for C1: a concrete in-range profile and a model returning -5;
the hypotheses are discharged at this input. -/
theorem predict_cost_nonneg_and_persisted_witness :
    0 ≤ (predictCostFlow (fun _ => -5) id [] "alice"
          ⟨30, Sex.male, 25, 0, false, Region.northwest⟩ 0).1 ∧
    ∃ rec : PredictionRecord,
      (predictCostFlow (fun _ => -5) id [] "alice"
          ⟨30, Sex.male, 25, 0, false, Region.northwest⟩ 0).2 = [] ++ [rec] ∧
      rec.prediction = (predictCostFlow (fun _ => -5) id [] "alice"
          ⟨30, Sex.male, 25, 0, false, Region.northwest⟩ 0).1 ∧
      0 ≤ rec.prediction :=
  predict_cost_nonneg_and_persisted (fun _ => -5) id [] "alice"
    ⟨30, Sex.male, 25, 0, false, Region.northwest⟩ 0
    (by norm_num [Profile.inRange])

/-- C2 counterexample: the Quit Smoking scenario on a smoker baseline with
`last_prediction = 0` and a model returning 7000 reports a percent change
of negative infinity (the unguarded `savings / baseline * 100` under
numpy float semantics), which is not the NaN / "undefined" sentinel the
claim requires. -/
theorem zero_baseline_pct_counterexample :
    quitSmoking (fun _ => 7000) id ⟨30, Sex.male, 25, 0, true, Region.northwest⟩ 0 =
      QuitSmokingOutcome.result
        ⟨⟨30, Sex.male, 25, 0, false, Region.northwest⟩, 7000, -7000, FVal.negInf⟩ ∧
    FVal.negInf ≠ FVal.nan := by
  refine ⟨?_, by decide⟩
  norm_num [quitSmoking, pctChange]

/-- C2 (amended): on a zero baseline the scenario percent computation
never raises a division-by-zero error — numpy float division makes it
total — but the source has no guard and no sentinel branch: the reported
percent is NaN exactly when the delta is 0 and ±infinity otherwise, never
a finite value (and, when the re-predicted cost is nonzero, not NaN). -/
theorem zero_baseline_pct_total_not_finite (model : List ℚ → ℚ)
    (scaler : List ℚ → List ℚ) (p : Profile) (hs : p.smoker = true) :
    (∃ r : ScenarioResult,
      quitSmoking model scaler p 0 = QuitSmokingOutcome.result r ∧
      (r.pct_change = FVal.nan ∨ r.pct_change = FVal.posInf ∨
        r.pct_change = FVal.negInf) ∧
      ∀ q : ℚ, r.pct_change ≠ FVal.finite q) ∧
    ((loseWeight model scaler p 0).pct_change = FVal.nan ∨
      (loseWeight model scaler p 0).pct_change = FVal.posInf ∨
      (loseWeight model scaler p 0).pct_change = FVal.negInf) ∧
    (∀ q : ℚ, (loseWeight model scaler p 0).pct_change ≠ FVal.finite q) := by
  refine ⟨⟨_, quitSmoking_eq_of_smoker model scaler p 0 hs,
    (pctChange_zero_den _).1, (pctChange_zero_den _).2⟩, ?_, ?_⟩
  · exact (pctChange_zero_den _).1
  · exact (pctChange_zero_den _).2

/-- Witness for C2 (amended) at a concrete smoker profile and a model
returning 7000. -/
theorem zero_baseline_pct_total_not_finite_witness :
    (∃ r : ScenarioResult,
      quitSmoking (fun _ => 7000) id ⟨30, Sex.male, 25, 0, true, Region.northwest⟩ 0 =
        QuitSmokingOutcome.result r ∧
      (r.pct_change = FVal.nan ∨ r.pct_change = FVal.posInf ∨
        r.pct_change = FVal.negInf) ∧
      ∀ q : ℚ, r.pct_change ≠ FVal.finite q) ∧
    ((loseWeight (fun _ => 7000) id ⟨30, Sex.male, 25, 0, true, Region.northwest⟩ 0).pct_change = FVal.nan ∨
      (loseWeight (fun _ => 7000) id ⟨30, Sex.male, 25, 0, true, Region.northwest⟩ 0).pct_change = FVal.posInf ∨
      (loseWeight (fun _ => 7000) id ⟨30, Sex.male, 25, 0, true, Region.northwest⟩ 0).pct_change = FVal.negInf) ∧
    (∀ q : ℚ, (loseWeight (fun _ => 7000) id ⟨30, Sex.male, 25, 0, true, Region.northwest⟩ 0).pct_change ≠ FVal.finite q) :=
  zero_baseline_pct_total_not_finite (fun _ => 7000) id
    ⟨30, Sex.male, 25, 0, true, Region.northwest⟩ rfl

/-- C3 counterexample: with a model whose raw output is -5, the Quit
Smoking re-prediction is stored and displayed as -5 — negative, hence not
clamped at 0 as the claim asserts. -/
theorem scenario_unclamped_counterexample :
    quitSmoking (fun _ => -5) id ⟨30, Sex.male, 25, 0, true, Region.northwest⟩ 10000 =
      QuitSmokingOutcome.result
        ⟨⟨30, Sex.male, 25, 0, false, Region.northwest⟩, -5, 10005,
          FVal.finite (2001 / 20)⟩ ∧
    (-5 : ℚ) < 0 := by
  refine ⟨?_, by norm_num⟩
  norm_num [quitSmoking, pctChange]

/-- C3 (amended): every scenario's re-prediction goes through the same
encoding, scaler and model pipeline as the baseline, but without the
final clamp: `new_cost` equals the raw pipeline output on the modified
profile, so it is negative exactly when the raw model output is. -/
theorem scenario_new_cost_unclamped (model : List ℚ → ℚ)
    (scaler : List ℚ → List ℚ) (p : Profile) (c : ℚ) (hs : p.smoker = true) :
    (∃ r : ScenarioResult,
      quitSmoking model scaler p c = QuitSmokingOutcome.result r ∧
      r.modified = { p with smoker := false } ∧
      r.new_pred = rawPredict model scaler r.modified) ∧
    (loseWeight model scaler p c).new_pred =
      rawPredict model scaler (loseWeight model scaler p c).modified ∧
    (changeRegion model scaler p c).new_pred =
      rawPredict model scaler (changeRegion model scaler p c).modified ∧
    (projectTenYears model scaler p c).new_pred =
      rawPredict model scaler (projectTenYears model scaler p c).modified := by
  refine ⟨⟨_, quitSmoking_eq_of_smoker model scaler p c hs, rfl, ?_⟩, ?_, ?_, ?_⟩
  · simp [rawPredict, quitSmokingFeatures_eq { p with smoker := false } rfl]
  · simp [loseWeight, rawPredict, inlineScenarioFeatures_eq]
  · simp [changeRegion, rawPredict, inlineScenarioFeatures_eq]
  · simp [projectTenYears, rawPredict, inlineScenarioFeatures_eq]

/-- Witness for C3 (amended) at a concrete smoker profile and a model
returning -5. -/
theorem scenario_new_cost_unclamped_witness :
    (∃ r : ScenarioResult,
      quitSmoking (fun _ => -5) id ⟨30, Sex.male, 25, 0, true, Region.northwest⟩ 10000 =
        QuitSmokingOutcome.result r ∧
      r.modified = { (⟨30, Sex.male, 25, 0, true, Region.northwest⟩ : Profile) with smoker := false } ∧
      r.new_pred = rawPredict (fun _ => -5) id r.modified) ∧
    (loseWeight (fun _ => -5) id ⟨30, Sex.male, 25, 0, true, Region.northwest⟩ 10000).new_pred =
      rawPredict (fun _ => -5) id (loseWeight (fun _ => -5) id ⟨30, Sex.male, 25, 0, true, Region.northwest⟩ 10000).modified ∧
    (changeRegion (fun _ => -5) id ⟨30, Sex.male, 25, 0, true, Region.northwest⟩ 10000).new_pred =
      rawPredict (fun _ => -5) id (changeRegion (fun _ => -5) id ⟨30, Sex.male, 25, 0, true, Region.northwest⟩ 10000).modified ∧
    (projectTenYears (fun _ => -5) id ⟨30, Sex.male, 25, 0, true, Region.northwest⟩ 10000).new_pred =
      rawPredict (fun _ => -5) id (projectTenYears (fun _ => -5) id ⟨30, Sex.male, 25, 0, true, Region.northwest⟩ 10000).modified :=
  scenario_new_cost_unclamped (fun _ => -5) id
    ⟨30, Sex.male, 25, 0, true, Region.northwest⟩ 10000 rfl

/-- C4: for every username free at signup time, `create_user` followed by
`verify_user` with the same credentials returns true; with any different
password it returns false (assuming the digest is collision-free, as the
source assumes of SHA-256); and for a username never created it returns
false as well. -/
theorem create_then_verify (hash : String → String)
    (hinj : Function.Injective hash) (db : List UserRow) (u p : String)
    (now : ℕ) (hfree : db.any (fun r => r.username == u) = false) :
    verify_user hash (create_user hash db u p now).1 u p = true ∧
    (∀ p2 : String, p2 ≠ p →
      verify_user hash (create_user hash db u p now).1 u p2 = false) ∧
    (∀ v q : String, db.any (fun r => r.username == v) = false → v ≠ u →
      verify_user hash (create_user hash db u p now).1 v q = false) := by
  have hcr : (create_user hash db u p now).1 = db ++ [⟨u, hash p, now⟩] := by
    simp [create_user, hfree]
  rw [hcr]
  rw [List.any_eq_false] at hfree
  refine ⟨?_, ?_, ?_⟩
  · simp [verify_user]
  · intro p2 hne
    have hhash : (hash p == hash p2) = false := by
      rw [beq_eq_false_iff_ne]
      exact fun h => hne (hinj h).symm
    have hdb : ∀ r ∈ db, (r.username == u && r.password == hash p2) = false := by
      intro r hr
      have := hfree r hr
      simp only [Bool.and_eq_false_iff]
      left
      simpa using this
    simp only [verify_user, List.any_append, List.any_cons, List.any_nil]
    rw [List.any_eq_false.mpr (by intro r hr; simp [hdb r hr])]
    simp [hhash]
  · intro v q hvfree hvne
    rw [List.any_eq_false] at hvfree
    have hdb : ∀ r ∈ db, (r.username == v && r.password == hash q) = false := by
      intro r hr
      have := hvfree r hr
      simp only [Bool.and_eq_false_iff]
      left
      simpa using this
    simp only [verify_user, List.any_append, List.any_cons, List.any_nil]
    rw [List.any_eq_false.mpr (by intro r hr; simp [hdb r hr])]
    simp [beq_eq_false_iff_ne, Ne.symm hvne]

/-- Witness for C4: on an empty users table with the identity digest,
alice/secret verifies, alice/wrong and bob/anything do not. -/
theorem create_then_verify_witness :
    verify_user id (create_user id [] "alice" "secret" 0).1 "alice" "secret" = true ∧
    verify_user id (create_user id [] "alice" "secret" 0).1 "alice" "wrong" = false ∧
    verify_user id (create_user id [] "alice" "secret" 0).1 "bob" "secret" = false :=
  ⟨(create_then_verify id Function.injective_id [] "alice" "secret" 0 rfl).1,
   (create_then_verify id Function.injective_id [] "alice" "secret" 0 rfl).2.1
     "wrong" (by decide),
   (create_then_verify id Function.injective_id [] "alice" "secret" 0 rfl).2.2
     "bob" "secret" rfl (by decide)⟩

/-- C5: once `create_user` has succeeded for a username, a second call
with the same username returns the caught-constraint-violation value
`false` — not an exception — regardless of the password, and leaves the
users table exactly as it was. -/
theorem create_twice_fails (hash : String → String) (db : List UserRow)
    (u p p2 : String) (now now2 : ℕ)
    (h : (create_user hash db u p now).2 = true) :
    create_user hash (create_user hash db u p now).1 u p2 now2 =
      ((create_user hash db u p now).1, false) := by
  have hf : db.any (fun r => r.username == u) = false := by
    by_cases hc : db.any (fun r => r.username == u) = true
    · exfalso
      rw [create_user] at h
      rw [if_pos hc] at h
      exact Bool.false_ne_true h
    · simpa using hc
  have hcr : (create_user hash db u p now).1 = db ++ [⟨u, hash p, now⟩] := by
    simp [create_user, hf]
  rw [hcr]
  have hmem : (db ++ [⟨u, hash p, now⟩] :
      List UserRow).any (fun r => r.username == u) = true := by
    simp [List.any_append]
  simp [create_user, hmem]

/-- Witness for C5: creating "alice" twice on an initially empty table;
the second call returns the unchanged table and false. -/
theorem create_twice_fails_witness :
    create_user id (create_user id [] "alice" "secret" 0).1 "alice" "other" 1 =
      ((create_user id [] "alice" "secret" 0).1, false) :=
  create_twice_fails id [] "alice" "secret" "other" 0 1 rfl

/-- C6: a `save_prediction` whose `created_at` is strictly newer than
every row of the table, immediately followed by `get_user_predictions`
for that user, returns the newly inserted row first, storing exactly the
cost that was passed; and for a user with no rows,
`get_user_predictions` returns the empty list rather than an error. -/
theorem record_then_list (db : List PredictionRecord) (u : String) (age : ℕ)
    (sex : Sex) (bmi : ℚ) (children : ℕ) (smoker : ℕ) (region : Region)
    (cost : ℚ) (now : ℕ) (hts : ∀ r ∈ db, r.created_at < now) :
    (get_user_predictions
        (save_prediction db u age sex bmi children smoker region cost now) u).head? =
      some ⟨u, age, sex, bmi, children, smoker, region, cost, now⟩ ∧
    (∀ v : String, (∀ r ∈ db, r.username ≠ v) →
      get_user_predictions db v = []) := by
  constructor
  · have hfil : (save_prediction db u age sex bmi children smoker region cost now).filter
        (fun r => r.username == u) =
        db.filter (fun r => r.username == u) ++
          [⟨u, age, sex, bmi, children, smoker, region, cost, now⟩] := by
      simp [save_prediction, List.filter_append]
    have hb : ∀ r ∈ db.filter (fun r => r.username == u),
        r.created_at <
          (⟨u, age, sex, bmi, children, smoker, region, cost, now⟩ :
            PredictionRecord).created_at := by
      intro r hr
      exact hts r (List.mem_of_mem_filter hr)
    obtain ⟨t, htt⟩ := sortByCreatedDesc_append_newest _ _ hb
    rw [get_user_predictions, hfil, htt]
    rfl
  · intro v hv
    have hnil : db.filter (fun r => r.username == v) = [] := by
      rw [List.filter_eq_nil_iff]
      intro r hr
      simp [hv r hr]
    rw [get_user_predictions, hnil]
    rfl

/-- Witness for C6: one insert for alice into an empty table; the history
read returns exactly that row first, and bob's history is empty. -/
theorem record_then_list_witness :
    (get_user_predictions
        (save_prediction [] "alice" 30 Sex.male 25 0 0 Region.northwest 12345 0)
        "alice").head? =
      some ⟨"alice", 30, Sex.male, 25, 0, 0, Region.northwest, 12345, 0⟩ ∧
    (∀ v : String, (∀ r ∈ ([] : List PredictionRecord), r.username ≠ v) →
      get_user_predictions [] v = []) :=
  record_then_list [] "alice" 30 Sex.male 25 0 0 Region.northwest 12345 0
    (by intro r hr; cases hr)

/-- C7: the Change Region transform follows the fixed deterministic cycle
northwest→northeast→southwest→southeast→northwest, wrapping modulo 4, and
four applications return any region to itself; the scenario applies
exactly this transform to the baseline region. -/
theorem change_region_cycles :
    nextRegion Region.northwest = Region.northeast ∧
    nextRegion Region.northeast = Region.southwest ∧
    nextRegion Region.southwest = Region.southeast ∧
    nextRegion Region.southeast = Region.northwest ∧
    (∀ r : Region, nextRegion (nextRegion (nextRegion (nextRegion r))) = r) ∧
    (∀ (model : List ℚ → ℚ) (scaler : List ℚ → List ℚ) (p : Profile) (c : ℚ),
      (changeRegion model scaler p c).modified.region = nextRegion p.region) := by
  refine ⟨rfl, rfl, rfl, rfl, ?_, ?_⟩
  · intro r; cases r <;> rfl
  · intro model scaler p c; rfl

/-- C8: on a baseline with `smoker = false`, the Quit Smoking button
reports the no-change message and never the savings branch — the handler
is a single conditional on the baseline's smoker flag. -/
theorem quit_smoking_nonsmoker_no_change (model : List ℚ → ℚ)
    (scaler : List ℚ → List ℚ) (p : Profile) (c : ℚ) (h : p.smoker = false) :
    quitSmoking model scaler p c = QuitSmokingOutcome.alreadyNonSmoker ∧
    ∀ r : ScenarioResult,
      quitSmoking model scaler p c ≠ QuitSmokingOutcome.result r := by
  have hq : quitSmoking model scaler p c = QuitSmokingOutcome.alreadyNonSmoker := by
    simp [quitSmoking, h]
  exact ⟨hq, fun r hr => by rw [hq] at hr; exact QuitSmokingOutcome.noConfusion hr⟩

/-- Witness for C8 at a concrete non-smoker profile. -/
theorem quit_smoking_nonsmoker_no_change_witness :
    quitSmoking (fun _ => 7000) id ⟨30, Sex.male, 25, 0, false, Region.northwest⟩ 9000 =
      QuitSmokingOutcome.alreadyNonSmoker ∧
    ∀ r : ScenarioResult,
      quitSmoking (fun _ => 7000) id ⟨30, Sex.male, 25, 0, false, Region.northwest⟩ 9000 ≠
        QuitSmokingOutcome.result r :=
  quit_smoking_nonsmoker_no_change (fun _ => 7000) id
    ⟨30, Sex.male, 25, 0, false, Region.northwest⟩ 9000 rfl

/-- C9: the encoding contract — sex female:0/male:1, smoker false:0/true:1,
region northwest:0/northeast:1/southwest:2/southeast:3, feature order
`[age, sex, bmi, children, smoker, region]` — and the scenario
recomputation paths assemble a feature row identical to the tab-1 one on
their modified profiles. -/
theorem feature_encoding_contract :
    (sex_encoded Sex.female = 0 ∧ sex_encoded Sex.male = 1) ∧
    (smoker_encoded false = 0 ∧ smoker_encoded true = 1) ∧
    (region_mapping Region.northwest = 0 ∧ region_mapping Region.northeast = 1 ∧
      region_mapping Region.southwest = 2 ∧ region_mapping Region.southeast = 3) ∧
    (∀ p : Profile, features p =
      [(p.age : ℚ), sex_encoded p.sex, p.bmi, (p.children : ℚ),
       smoker_encoded p.smoker, region_mapping p.region]) ∧
    (∀ (model : List ℚ → ℚ) (scaler : List ℚ → List ℚ) (p : Profile),
      rawPredict model scaler p = model (scaler (features p))) ∧
    (∀ m : Profile, m.smoker = false → quitSmokingFeatures m = features m) ∧
    (∀ m : Profile, inlineScenarioFeatures m = features m) := by
  refine ⟨⟨rfl, rfl⟩, ⟨rfl, rfl⟩, ⟨rfl, rfl, rfl, rfl⟩, fun p => rfl,
    fun model scaler p => rfl, ?_, ?_⟩
  · intro m hm; exact quitSmokingFeatures_eq m hm
  · intro m; exact inlineScenarioFeatures_eq m

/-- C10: running any scenario leaves the whole session state — the
predictions table and the baseline `last_formdata`/`last_prediction` —
unchanged (each builds its modified profile from a copy), and only the
Predict Cost flow appends a ledger row. -/
theorem scenarios_preserve_state (model : List ℚ → ℚ)
    (scaler : List ℚ → List ℚ) (st : AppState) :
    (runQuitSmoking model scaler st).1 = st ∧
    (runLoseWeight model scaler st).1 = st ∧
    (runChangeRegion model scaler st).1 = st ∧
    (runProjectTenYears model scaler st).1 = st ∧
    (runQuitSmoking model scaler st).1.preds = st.preds ∧
    (runLoseWeight model scaler st).1.preds = st.preds ∧
    (runChangeRegion model scaler st).1.preds = st.preds ∧
    (runProjectTenYears model scaler st).1.preds = st.preds ∧
    (∀ p : Profile, (runPredictCost model scaler st p).1.preds =
      st.preds ++ [⟨st.username, p.age, p.sex, p.bmi, p.children,
        (if p.smoker then 1 else 0), p.region,
        max 0 (rawPredict model scaler p), st.now⟩]) :=
  ⟨rfl, rfl, rfl, rfl, rfl, rfl, rfl, rfl, fun p => rfl⟩

end InsureAI
